import Mathlib

/-!
Shallow embedding of `src/scripts/arabic.rs` (Arabic shaping for the
`allsorts` font shaper) and proofs about it.

External collaborators (the font-table parser, the generic substitution
engine `gsub::gsub_apply_lookup`, the lookup cache, and the Unicode
joining-type property source `unicode_joining_type::get_joining_type`)
are abstracted as function parameters; everything defined in
`src/scripts/arabic.rs` itself is embedded directly.
-/

set_option maxRecDepth 4096

namespace Allsorts

/-- Unicode joining type, mirroring `unicode_joining_type::JoiningType`. -/
inductive JoiningType where
  | NonJoining
  | RightJoining
  | LeftJoining
  | DualJoining
  | JoinCausing
  | Transparent
deriving DecidableEq, Repr

/-- The `GlyphOrigin` type from `crate::gsub`: either an originating character or a
direct (synthetic) glyph with no character. -/
inductive GlyphOrigin where
  | Char (c : Char)
  | Direct
deriving DecidableEq, Repr

/-- The generic glyph record `RawGlyph<T>` from `crate::gsub`, with the
fields used by `src/scripts/arabic.rs`.  Machine integers are modelled as
`Nat` (no arithmetic is performed on them here). -/
structure RawGlyph (T : Type) where
  unicodes : List Char
  glyph_index : Option Nat
  liga_component_pos : Nat
  glyph_origin : GlyphOrigin
  small_caps : Bool
  multi_subst_dup : Bool
  is_vert_alt : Bool
  fake_bold : Bool
  fake_italic : Bool
  variation : Option Nat
  extra_data : T
deriving DecidableEq, Repr

/-!
OpenType feature tags used by the Arabic shaper (`crate::tag`), as the
big-endian `u32` of the four ASCII bytes.
-/

namespace tag

def CCMP : Nat := 0x63636D70
def ISOL : Nat := 0x69736F6C
def FINA : Nat := 0x66696E61
def MEDI : Nat := 0x6D656469
def INIT : Nat := 0x696E6974
def LOCL : Nat := 0x6C6F636C
def RLIG : Nat := 0x726C6967
def RCLT : Nat := 0x72636C74
def CALT : Nat := 0x63616C74
def LIGA : Nat := 0x6C696761
def MSET : Nat := 0x6D736574

end tag

/-- Rust `ArabicData`: the per-glyph extension payload of the Arabic shaper. -/
structure ArabicData where
  joining_type : JoiningType
  canonical_combining_class : Nat
  feature_tag : Nat
deriving DecidableEq, Repr

/-- Rust `ArabicData::merge` (the `GlyphData` impl): keeps the first record's
data, discarding the second (provisional merge policy). -/
def ArabicData.merge (data1 _data2 : ArabicData) : ArabicData :=
  data1

/-- Arabic glyphs are `RawGlyph` records with `ArabicData` extension. -/
abbrev ArabicGlyph := RawGlyph ArabicData

namespace ArabicGlyph

/-- Embeds `ArabicGlyph::is_transparent`. -/
def is_transparent (g : ArabicGlyph) : Bool :=
  g.extra_data.joining_type == JoiningType.Transparent || g.multi_subst_dup

/-- Embeds `ArabicGlyph::is_left_joining`. -/
def is_left_joining (g : ArabicGlyph) : Bool :=
  g.extra_data.joining_type == JoiningType.LeftJoining
    || g.extra_data.joining_type == JoiningType.DualJoining
    || g.extra_data.joining_type == JoiningType.JoinCausing

/-- Embeds `ArabicGlyph::is_right_joining`. -/
def is_right_joining (g : ArabicGlyph) : Bool :=
  g.extra_data.joining_type == JoiningType.RightJoining
    || g.extra_data.joining_type == JoiningType.DualJoining
    || g.extra_data.joining_type == JoiningType.JoinCausing

/-- Embeds `ArabicGlyph::feature_tag`. -/
def feature_tag (g : ArabicGlyph) : Nat :=
  g.extra_data.feature_tag

/-- Embeds `ArabicGlyph::set_feature_tag` (functional update in place of the Rust
`&mut self` setter). -/
def set_feature_tag (g : ArabicGlyph) (ft : Nat) : ArabicGlyph :=
  { g with extra_data := { g.extra_data with feature_tag := ft } }

end ArabicGlyph

instance : Inhabited ArabicGlyph :=
  ⟨{ unicodes := [], glyph_index := none, liga_component_pos := 0,
     glyph_origin := GlyphOrigin.Direct, small_caps := false,
     multi_subst_dup := false, is_vert_alt := false, fake_bold := false,
     fake_italic := false, variation := none,
     extra_data := { joining_type := JoiningType.NonJoining,
                     canonical_combining_class := 0,
                     feature_tag := tag.ISOL } }⟩

/-- Embeds `canonical_combining_class` (`src/scripts/arabic.rs:265-365`): fixed
table of Arabic-block combining marks, defaulting to 0. -/
def canonical_combining_class (ch : Char) : Nat :=
  match ch with
  | '\u064B' => 27  -- Fathatan
  | '\u08F0' => 27  -- Open Fathatan
  | '\u064C' => 28  -- Dammatan
  | '\u08F1' => 28  -- Open Dammatan
  | '\u064D' => 29  -- Kasratan
  | '\u08F2' => 29  -- Open Kasratan
  | '\u0618' => 30  -- Small Fatha
  | '\u064E' => 30  -- Fatha
  | '\u0619' => 31  -- Small Damma
  | '\u064F' => 31  -- Damma
  | '\u061A' => 32  -- Small Kasra
  | '\u0650' => 32  -- Kasra
  | '\u0651' => 33  -- Shadda
  | '\u0652' => 34  -- Sukun
  | '\u0670' => 35  -- Letter Superscript Alef
  | '\u0655' => 220  -- Hamza Below
  | '\u0656' => 220  -- Subscript Alef
  | '\u065C' => 220  -- Vowel Sign Dot Below
  | '\u065F' => 220  -- Wavy Hamza Below
  | '\u06E3' => 220  -- Small Low Seen
  | '\u06EA' => 220  -- Empty Centre Low Stop
  | '\u06ED' => 220  -- Small Low Meem
  | '\u08D3' => 220  -- Small Low Waw
  | '\u08E3' => 220  -- Turned Damma Below
  | '\u08E6' => 220  -- Curly Kasra
  | '\u08E9' => 220  -- Curly Kasratan
  | '\u08ED' => 220  -- Tone One Dot Below
  | '\u08EE' => 220  -- Tone Two Dots Below
  | '\u08EF' => 220  -- Tone Loop Below
  | '\u08F6' => 220  -- Kasra With Dot Below
  | '\u08F9' => 220  -- Left Arrowhead Below
  | '\u08FA' => 220  -- Right Arrowhead Below
  | '\u0610' => 230  -- Sign Sallallahou Alayhe Wassallam
  | '\u0611' => 230  -- Sign Alayhe Assallam
  | '\u0612' => 230  -- Sign Rahmatullah Alayhe
  | '\u0613' => 230  -- Sign Radi Allahou Anhu
  | '\u0614' => 230  -- Sign Takhallus
  | '\u0615' => 230  -- Small High Tah
  | '\u0616' => 230  -- Small High Ligature Alef With Lam With Yeh
  | '\u0617' => 230  -- Small High Zain
  | '\u0653' => 230  -- Maddah Above
  | '\u0654' => 230  -- Hamza Above
  | '\u0657' => 230  -- Inverted Damma
  | '\u0658' => 230  -- Mark Noon Ghunna
  | '\u0659' => 230  -- Zwarakay
  | '\u065A' => 230  -- Vowel Sign Small V Above
  | '\u065B' => 230  -- Vowel Sign Inverted Small V Above
  | '\u065D' => 230  -- Reversed Damma
  | '\u065E' => 230  -- Fatha With Two Dots
  | '\u06D6' => 230  -- Small High Ligature Sad With Lam With Alef Maksura
  | '\u06D7' => 230  -- Small High Ligature Qaf With Lam With Alef Maksura
  | '\u06D8' => 230  -- Small High Meem Initial Form
  | '\u06D9' => 230  -- Small High Lam Alef
  | '\u06DA' => 230  -- Small High Jeem
  | '\u06DB' => 230  -- Small High Three Dots
  | '\u06DC' => 230  -- Small High Seen
  | '\u06DF' => 230  -- Small High Rounded Zero
  | '\u06E0' => 230  -- Small High Upright Rectangular Zero
  | '\u06E1' => 230  -- Small High Dotless Head Of Khah
  | '\u06E2' => 230  -- Small High Meem Isolated Form
  | '\u06E4' => 230  -- Small High Madda
  | '\u06E7' => 230  -- Small High Yeh
  | '\u06E8' => 230  -- Small High Noon
  | '\u06EB' => 230  -- Empty Centre High Stop
  | '\u06EC' => 230  -- Rounded High Stop With Filled Centre
  | '\u08D4' => 230  -- Small High Word Ar-Rub
  | '\u08D5' => 230  -- Small High Sad
  | '\u08D6' => 230  -- Small High Ain
  | '\u08D7' => 230  -- Small High Qaf
  | '\u08D8' => 230  -- Small High Noon With Kasra
  | '\u08D9' => 230  -- Small Low Noon With Kasra
  | '\u08DA' => 230  -- Small High Word Ath-Thalatha
  | '\u08DB' => 230  -- Small High Word As-Sajda
  | '\u08DC' => 230  -- Small High Word An-Nisf
  | '\u08DD' => 230  -- Small High Word Sakta
  | '\u08DE' => 230  -- Small High Word Qif
  | '\u08DF' => 230  -- Small High Word Waqfa
  | '\u08E0' => 230  -- Small High Footnote Marker
  | '\u08E1' => 230  -- Small High Sign Safha
  | '\u08E4' => 230  -- Curly Fatha
  | '\u08E5' => 230  -- Curly Damma
  | '\u08E7' => 230  -- Curly Fathatan
  | '\u08E8' => 230  -- Curly Dammatan
  | '\u08EA' => 230  -- Tone One Dot Above
  | '\u08EB' => 230  -- Tone Two Dots Above
  | '\u08EC' => 230  -- Tone Loop Above
  | '\u08F3' => 230  -- Small High Waw
  | '\u08F4' => 230  -- Fatha With Ring
  | '\u08F5' => 230  -- Fatha With Dot Above
  | '\u08F7' => 230  -- Left Arrowhead Above
  | '\u08F8' => 230  -- Right Arrowhead Above
  | '\u08FB' => 230  -- Double Right Arrowhead Above
  | '\u08FC' => 230  -- Double Right Arrowhead Above With Dot
  | '\u08FD' => 230  -- Right Arrowhead Above With Dot
  | '\u08FE' => 230  -- Damma With Dot
  | '\u08FF' => 230  -- Mark Sideways Noon Ghunna
  | _ => 0


/-- The domain of the fixed combining-class table: exactly the characters
enumerated by the `match` in `canonical_combining_class`. -/
def ccc_tabulated : List Char :=
  [
    '\u064B', '\u08F0', '\u064C', '\u08F1', '\u064D', '\u08F2',
    '\u0618', '\u064E', '\u0619', '\u064F', '\u061A', '\u0650',
    '\u0651', '\u0652', '\u0670', '\u0655', '\u0656', '\u065C',
    '\u065F', '\u06E3', '\u06EA', '\u06ED', '\u08D3', '\u08E3',
    '\u08E6', '\u08E9', '\u08ED', '\u08EE', '\u08EF', '\u08F6',
    '\u08F9', '\u08FA', '\u0610', '\u0611', '\u0612', '\u0613',
    '\u0614', '\u0615', '\u0616', '\u0617', '\u0653', '\u0654',
    '\u0657', '\u0658', '\u0659', '\u065A', '\u065B', '\u065D',
    '\u065E', '\u06D6', '\u06D7', '\u06D8', '\u06D9', '\u06DA',
    '\u06DB', '\u06DC', '\u06DF', '\u06E0', '\u06E1', '\u06E2',
    '\u06E4', '\u06E7', '\u06E8', '\u06EB', '\u06EC', '\u08D4',
    '\u08D5', '\u08D6', '\u08D7', '\u08D8', '\u08D9', '\u08DA',
    '\u08DB', '\u08DC', '\u08DD', '\u08DE', '\u08DF', '\u08E0',
    '\u08E1', '\u08E4', '\u08E5', '\u08E7', '\u08E8', '\u08EA',
    '\u08EB', '\u08EC', '\u08F3', '\u08F4', '\u08F5', '\u08F7',
    '\u08F8', '\u08FB', '\u08FC', '\u08FD', '\u08FE', '\u08FF'
  ]

/-- Embeds `impl From<&RawGlyph<()>> for ArabicGlyph`
(`src/scripts/arabic.rs:61-96`).  `get_joining_type` is the external
Unicode property source, passed as a parameter `gjt`. -/
def ArabicGlyph.fromRaw (gjt : Char → JoiningType) (raw_glyph : RawGlyph Unit) :
    ArabicGlyph :=
  let joining_type :=
    match raw_glyph.glyph_origin with
    | GlyphOrigin.Char c => gjt c
    | GlyphOrigin.Direct => JoiningType.NonJoining
  let ccc :=
    match raw_glyph.glyph_origin with
    | GlyphOrigin.Char c => canonical_combining_class c
    | GlyphOrigin.Direct => 0
  { unicodes := raw_glyph.unicodes
    glyph_index := raw_glyph.glyph_index
    liga_component_pos := raw_glyph.liga_component_pos
    glyph_origin := raw_glyph.glyph_origin
    small_caps := raw_glyph.small_caps
    multi_subst_dup := raw_glyph.multi_subst_dup
    is_vert_alt := raw_glyph.is_vert_alt
    fake_bold := raw_glyph.fake_bold
    fake_italic := raw_glyph.fake_italic
    variation := raw_glyph.variation
    extra_data := { joining_type := joining_type
                    canonical_combining_class := ccc
                    feature_tag := tag.ISOL } }

/-- Embeds `impl From<&ArabicGlyph> for RawGlyph<()>`
(`src/scripts/arabic.rs:98-114`): drops the extension data. -/
def RawGlyph.fromArabic (arabic_glyph : ArabicGlyph) : RawGlyph Unit :=
  { unicodes := arabic_glyph.unicodes
    glyph_index := arabic_glyph.glyph_index
    liga_component_pos := arabic_glyph.liga_component_pos
    glyph_origin := arabic_glyph.glyph_origin
    small_caps := arabic_glyph.small_caps
    multi_subst_dup := arabic_glyph.multi_subst_dup
    is_vert_alt := arabic_glyph.is_vert_alt
    fake_bold := arabic_glyph.fake_bold
    variation := arabic_glyph.variation
    fake_italic := arabic_glyph.fake_italic
    extra_data := () }

/-!
The Joining-State Engine: the `2. Computing letter joining states` block of
`gsub_apply_arabic` (`src/scripts/arabic.rs:150-173`).  The Rust `for` loop
is embedded with explicit fuel; `gs.length` fuel always suffices because
`i` increases by one per iteration and the loop body preserves the length.
-/

/-- One-for-one embedding of the loop body of the Joining-State Engine.
`previous_i` is the index of the most recently seen non-transparent glyph,
`i` the loop index. -/
def joining_pass (gs : List ArabicGlyph) (previous_i i fuel : Nat) :
    List ArabicGlyph :=
  match fuel with
  | 0 => gs
  | fuel + 1 =>
    if i < gs.length then
      let gi := gs.getD i default
      if gi.is_transparent then
        joining_pass gs previous_i (i + 1) fuel
      else
        let gp := gs.getD previous_i default
        let gs' :=
          if gp.is_left_joining && gi.is_right_joining then
            let gs1 := gs.set i (gi.set_feature_tag tag.FINA)
            let gp1 := gs1.getD previous_i default
            if gp1.feature_tag = tag.ISOL then
              gs1.set previous_i (gp1.set_feature_tag tag.INIT)
            else if gp1.feature_tag = tag.FINA then
              gs1.set previous_i (gp1.set_feature_tag tag.MEDI)
            else gs1
          else gs
        joining_pass gs' i (i + 1) fuel
    else gs

/-- The Joining-State Engine: initial `previous_i` is the position of the
first non-transparent glyph (`position(..).unwrap_or(0)`), the loop runs
from `previous_i + 1` to the end. -/
def compute_joining_states (gs : List ArabicGlyph) : List ArabicGlyph :=
  let previous_i := (gs.findIdx? fun g => !g.is_transparent).getD 0
  joining_pass gs previous_i (previous_i + 1) gs.length

/-- Variant of `joining_pass` in which every index access is checked, as
Rust's `glyphs[i]` panics out of bounds: returns `none` exactly when the
Rust loop would panic. -/
def joining_pass_checked (gs : List ArabicGlyph) (previous_i i fuel : Nat) :
    Option (List ArabicGlyph) :=
  match fuel with
  | 0 => some gs
  | fuel + 1 =>
    if i < gs.length then
      match gs[i]? with
      | none => none
      | some gi =>
        if gi.is_transparent then
          joining_pass_checked gs previous_i (i + 1) fuel
        else
          match gs[previous_i]? with
          | none => none
          | some gp =>
            if gp.is_left_joining && gi.is_right_joining then
              let gs1 := gs.set i (gi.set_feature_tag tag.FINA)
              match gs1[previous_i]? with
              | none => none
              | some gp1 =>
                let gs' :=
                  if gp1.feature_tag = tag.ISOL then
                    gs1.set previous_i (gp1.set_feature_tag tag.INIT)
                  else if gp1.feature_tag = tag.FINA then
                    gs1.set previous_i (gp1.set_feature_tag tag.MEDI)
                  else gs1
                joining_pass_checked gs' i (i + 1) fuel
            else
              joining_pass_checked gs i (i + 1) fuel
    else some gs

/-- Checked variant of `compute_joining_states`. -/
def compute_joining_states_checked (gs : List ArabicGlyph) :
    Option (List ArabicGlyph) :=
  let previous_i := (gs.findIdx? fun g => !g.is_transparent).getD 0
  joining_pass_checked gs previous_i (previous_i + 1) gs.length

/-!
The feature pipeline.  External collaborators are abstracted:

* `LookupsFor` stands for `gsub::get_lookups_cache_index` followed by
  `gsub_cache.cached_lookups.borrow()[index]`: resolving
  (script, language, feature mask) to the cached ordered list of
  `(lookup_index, feature_tag)` pairs, which can fail with a parse error;
* `ApplyLookup` stands for `gsub::gsub_apply_lookup`: applying one lookup
  under a per-glyph predicate over the whole glyph range, which can fail
  with a parse error and may rewrite the glyph sequence arbitrarily.
-/

/-- Parse-level error from the external font-table machinery (opaque). -/
inductive ParseError where
  | BadValue
deriving DecidableEq, Repr

/-- Rust `ShapingError`: wraps parse errors unchanged. -/
inductive ShapingError where
  | parse (e : ParseError)
deriving DecidableEq, Repr

/-- The `FeatureMask` constants from `crate::gsub` used by the Arabic shaper. -/
inductive FeatureMask where
  | CCMP | LOCL | ISOL | FINA | MEDI | INIT | RLIG | RCLT | CALT | LIGA | MSET
deriving DecidableEq, Repr

/-- Abstract lookup-cache resolution: script tag → language tag → feature
mask → ordered `(lookup_index, feature_tag)` list. -/
def LookupsFor : Type :=
  Nat → Option Nat → FeatureMask → Except ParseError (List (Nat × Nat))

/-- Abstract substitution engine: lookup index → feature tag → per-glyph
predicate → glyph sequence → new glyph sequence. -/
def ApplyLookup : Type :=
  Nat → Nat → (ArabicGlyph → Bool) → List ArabicGlyph →
    Except ParseError (List ArabicGlyph)

/-- Embeds `apply_lookups` (`src/scripts/arabic.rs:234-263`): resolve the cached
lookup list for the feature, then apply each lookup in order over the whole
sequence, gating glyphs on `pred g feature_tag`. -/
def apply_lookups (lookupsFor : LookupsFor) (applyLookup : ApplyLookup)
    (feature_mask : FeatureMask) (script_tag : Nat) (lang_tag : Option Nat)
    (arabic_glyphs : List ArabicGlyph) (pred : ArabicGlyph → Nat → Bool) :
    Except ParseError (List ArabicGlyph) := do
  let lookups ← lookupsFor script_tag lang_tag feature_mask
  lookups.foldlM
    (fun gs lf => applyLookup lf.1 lf.2 (fun g => pred g lf.2) gs)
    arabic_glyphs

/-- Embeds `LANGUAGE_FEATURES` (`src/scripts/arabic.rs:181-190`): the ordered
language-form feature table, each with its `is_global` flag. -/
def LANGUAGE_FEATURES : List (FeatureMask × Bool) :=
  [ (FeatureMask.LOCL, true),
    (FeatureMask.ISOL, false),
    (FeatureMask.FINA, false),
    (FeatureMask.MEDI, false),
    (FeatureMask.INIT, false),
    (FeatureMask.RLIG, true),
    (FeatureMask.RCLT, true),
    (FeatureMask.CALT, true) ]

/-- Embeds `TYPOGRAPHIC_FEATURES` (`src/scripts/arabic.rs:210`). -/
def TYPOGRAPHIC_FEATURES : List FeatureMask :=
  [FeatureMask.LIGA, FeatureMask.MSET]

/-- Abstract `LangSys` (opaque to this module). -/
def LangSys : Type := Unit

/-- Abstract script record: all this module does with it is call
`find_langsys_or_default`. -/
structure Script where
  find_langsys_or_default : Option Nat → Except ParseError (Option LangSys)

/-- Abstract `LayoutTable<GSUB>`: all this module does with it is call
`find_script` (the uses inside `gsub_apply_lookup` are inside the
`ApplyLookup` abstraction). -/
structure GsubTable where
  find_script : Nat → Except ParseError (Option Script)

/-- The glyph-sequence pipeline of `gsub_apply_arabic` between conversion
in and conversion out: CCMP, the Joining-State Engine, the language-form
features, the typographic features. -/
def arabic_pipeline (lookupsFor : LookupsFor) (applyLookup : ApplyLookup)
    (script_tag : Nat) (lang_tag : Option Nat)
    (arabic_glyphs : List ArabicGlyph) :
    Except ParseError (List ArabicGlyph) := do
  -- 1. Compound character composition and decomposition
  let arabic_glyphs ← apply_lookups lookupsFor applyLookup FeatureMask.CCMP
    script_tag lang_tag arabic_glyphs (fun _ _ => true)
  -- 2. Computing letter joining states
  let arabic_glyphs := compute_joining_states arabic_glyphs
  -- 3. Applying the stch feature: not implemented in the source (TODO there)
  -- 4. Applying the language-form substitution features from GSUB
  let arabic_glyphs ← LANGUAGE_FEATURES.foldlM
    (fun gs fm =>
      apply_lookups lookupsFor applyLookup fm.1 script_tag lang_tag gs
        (fun g feature_tag => fm.2 || g.feature_tag == feature_tag))
    arabic_glyphs
  -- 5. Applying the typographic-form substitution features from GSUB
  let arabic_glyphs ← TYPOGRAPHIC_FEATURES.foldlM
    (fun gs fm =>
      apply_lookups lookupsFor applyLookup fm script_tag lang_tag gs
        (fun _ _ => true))
    arabic_glyphs
  -- 6. Mark reordering: not implemented in the source
  pure arabic_glyphs

/-- Embeds `gsub_apply_arabic` (`src/scripts/arabic.rs:116-232`).  The Rust
function mutates `raw_glyphs` in place and returns `Result<(), _>`; here it
returns the pair (result, final state of `raw_glyphs`).  The write-back
`*raw_glyphs = ...` happens only on the success path, so on every error
path the second component is the input sequence unchanged. -/
def gsub_apply_arabic (gjt : Char → JoiningType) (lookupsFor : LookupsFor)
    (applyLookup : ApplyLookup) (gsub_table : GsubTable) (script_tag : Nat)
    (lang_tag : Option Nat) (raw_glyphs : List (RawGlyph Unit)) :
    Except ShapingError Unit × List (RawGlyph Unit) :=
  match gsub_table.find_script script_tag with
  | Except.error e => (Except.error (ShapingError.parse e), raw_glyphs)
  | Except.ok none => (Except.ok (), raw_glyphs)
  | Except.ok (some s) =>
    match s.find_langsys_or_default lang_tag with
    | Except.error e => (Except.error (ShapingError.parse e), raw_glyphs)
    | Except.ok none => (Except.ok (), raw_glyphs)
    | Except.ok (some _) =>
      match arabic_pipeline lookupsFor applyLookup script_tag lang_tag
          (raw_glyphs.map (ArabicGlyph.fromRaw gjt)) with
      | Except.error e => (Except.error (ShapingError.parse e), raw_glyphs)
      | Except.ok arabic_glyphs =>
        (Except.ok (), arabic_glyphs.map RawGlyph.fromArabic)

/-- Modelled from the spec: the fixed application order CCMP, then the
Joining-State Engine, then LOCL, ISOL, FINA, MEDI, INIT, RLIG, RCLT, CALT,
then LIGA, MSET, with ISOL/FINA/MEDI/INIT gated on feature-tag equality and
every other feature global.  Compared against `arabic_pipeline` (the
embedding of the source) in the feature-order theorem. -/
def spec_feature_order_pipeline (lookupsFor : LookupsFor)
    (applyLookup : ApplyLookup) (script_tag : Nat) (lang_tag : Option Nat)
    (gs : List ArabicGlyph) : Except ParseError (List ArabicGlyph) := do
  let g1 ← apply_lookups lookupsFor applyLookup FeatureMask.CCMP script_tag
    lang_tag gs (fun _ _ => true)
  let g2 ← apply_lookups lookupsFor applyLookup FeatureMask.LOCL script_tag
    lang_tag (compute_joining_states g1) (fun _ _ => true)
  let g3 ← apply_lookups lookupsFor applyLookup FeatureMask.ISOL script_tag
    lang_tag g2 (fun g feature_tag => g.feature_tag == feature_tag)
  let g4 ← apply_lookups lookupsFor applyLookup FeatureMask.FINA script_tag
    lang_tag g3 (fun g feature_tag => g.feature_tag == feature_tag)
  let g5 ← apply_lookups lookupsFor applyLookup FeatureMask.MEDI script_tag
    lang_tag g4 (fun g feature_tag => g.feature_tag == feature_tag)
  let g6 ← apply_lookups lookupsFor applyLookup FeatureMask.INIT script_tag
    lang_tag g5 (fun g feature_tag => g.feature_tag == feature_tag)
  let g7 ← apply_lookups lookupsFor applyLookup FeatureMask.RLIG script_tag
    lang_tag g6 (fun _ _ => true)
  let g8 ← apply_lookups lookupsFor applyLookup FeatureMask.RCLT script_tag
    lang_tag g7 (fun _ _ => true)
  let g9 ← apply_lookups lookupsFor applyLookup FeatureMask.CALT script_tag
    lang_tag g8 (fun _ _ => true)
  let g10 ← apply_lookups lookupsFor applyLookup FeatureMask.LIGA script_tag
    lang_tag g9 (fun _ _ => true)
  apply_lookups lookupsFor applyLookup FeatureMask.MSET script_tag
    lang_tag g10 (fun _ _ => true)

/-- A concrete script whose language-system resolution always succeeds. -/
def sampleLangsysScript : Script :=
  { find_langsys_or_default := fun _ => Except.ok (some ()) }

/-- A concrete layout table exposing `sampleLangsysScript` for every
script tag. -/
def sampleGsub : GsubTable :=
  { find_script := fun _ => Except.ok (some sampleLangsysScript) }

/-- A concrete layout table with no script at all. -/
def sampleGsubNoScript : GsubTable :=
  { find_script := fun _ => Except.ok none }

/-- A concrete substitution engine that applies every lookup as the
identity. -/
def idApplyLookup : ApplyLookup :=
  fun _ _ _ gs => Except.ok gs

/-- A concrete lookup cache with no lookups for any feature. -/
def emptyLookupsFor : LookupsFor :=
  fun _ _ _ => Except.ok []

/-- A concrete lookup cache that fails with a parse error. -/
def failLookupsFor : LookupsFor :=
  fun _ _ _ => Except.error ParseError.BadValue

/-- The set of feature tags reachable by the pipeline's tag discipline:
`feature_tag` is ISOL at creation and only the Joining-State Engine's
transitions touch it. -/
def tag_ok (g : ArabicGlyph) : Bool :=
  g.feature_tag == tag.ISOL || g.feature_tag == tag.INIT
    || g.feature_tag == tag.MEDI || g.feature_tag == tag.FINA

/-- The pointwise shadow of the engine's tag discipline: across the whole
pass a glyph's tag is unchanged, or was set to FINA, or advanced FINA→MEDI
(possibly after first receiving FINA), or advanced ISOL→INIT.  In
particular a tag never returns to ISOL and INIT arises only from ISOL. -/
def tag_transition_ok (x y : Nat) : Prop :=
  y = x ∨ y = tag.FINA ∨ y = tag.MEDI ∨ (x = tag.ISOL ∧ y = tag.INIT)

/-- A concrete synthetic-origin generic glyph, used to instantiate
universally quantified theorems. -/
def sampleDirectRaw : RawGlyph Unit :=
  { unicodes := [], glyph_index := some 7, liga_component_pos := 0,
    glyph_origin := GlyphOrigin.Direct, small_caps := false,
    multi_subst_dup := false, is_vert_alt := false, fake_bold := false,
    fake_italic := false, variation := none, extra_data := () }

/-- A concrete Arabic glyph with the given joining type, default `ISOL`
feature tag, and no flags, used to instantiate universally quantified
theorems. -/
def mkJoinGlyph (jt : JoiningType) : ArabicGlyph :=
  { unicodes := [], glyph_index := some 3, liga_component_pos := 0,
    glyph_origin := GlyphOrigin.Direct, small_caps := false,
    multi_subst_dup := false, is_vert_alt := false, fake_bold := false,
    fake_italic := false, variation := none,
    extra_data := { joining_type := jt, canonical_combining_class := 0,
                    feature_tag := tag.ISOL } }

/-!
## Theorems
-/

@[simp] theorem ArabicGlyph.set_feature_tag_feature_tag (g : ArabicGlyph) (ft : Nat) :
    (g.set_feature_tag ft).feature_tag = ft := rfl

@[simp] theorem ArabicGlyph.set_feature_tag_joining_type (g : ArabicGlyph) (ft : Nat) :
    (g.set_feature_tag ft).extra_data.joining_type = g.extra_data.joining_type := rfl

@[simp] theorem ArabicGlyph.set_feature_tag_multi_subst_dup (g : ArabicGlyph) (ft : Nat) :
    (g.set_feature_tag ft).multi_subst_dup = g.multi_subst_dup := rfl

@[simp] theorem ArabicGlyph.set_feature_tag_is_transparent (g : ArabicGlyph) (ft : Nat) :
    (g.set_feature_tag ft).is_transparent = g.is_transparent := rfl

@[simp] theorem ArabicGlyph.set_feature_tag_is_left_joining (g : ArabicGlyph) (ft : Nat) :
    (g.set_feature_tag ft).is_left_joining = g.is_left_joining := rfl

@[simp] theorem ArabicGlyph.set_feature_tag_is_right_joining (g : ArabicGlyph) (ft : Nat) :
    (g.set_feature_tag ft).is_right_joining = g.is_right_joining := rfl

theorem all_tag_ok_set {gs : List ArabicGlyph} {n : Nat} {x : ArabicGlyph}
    (h : gs.all tag_ok) (hx : tag_ok x) : (gs.set n x).all tag_ok := by
  rw [List.all_eq_true] at h ⊢
  intro a ha
  rcases List.mem_or_eq_of_mem_set ha with h1 | h1
  · exact h a h1
  · subst h1; exact hx

theorem joining_pass_all_tag_ok (fuel : Nat) :
    ∀ (gs : List ArabicGlyph) (previous_i i : Nat),
      gs.all tag_ok → (joining_pass gs previous_i i fuel).all tag_ok := by
  induction fuel with
  | zero => intro gs p i h; exact h
  | succ fuel ih =>
    intro gs p i h
    unfold joining_pass
    dsimp only
    by_cases hi : i < gs.length
    · rw [if_pos hi]
      by_cases ht : (gs.getD i default).is_transparent = true
      · rw [if_pos ht]
        exact ih _ _ _ h
      · rw [if_neg ht]
        by_cases hj : ((gs.getD p default).is_left_joining
            && (gs.getD i default).is_right_joining) = true
        · rw [if_pos hj]
          have h1 : (gs.set i ((gs.getD i default).set_feature_tag tag.FINA)).all
              tag_ok :=
            all_tag_ok_set h (by simp [tag_ok])
          by_cases hisol :
              ((gs.set i ((gs.getD i default).set_feature_tag tag.FINA)).getD p
                default).feature_tag = tag.ISOL
          · rw [if_pos hisol]
            exact ih _ _ _ (all_tag_ok_set h1 (by simp [tag_ok]))
          · rw [if_neg hisol]
            by_cases hfina :
                ((gs.set i ((gs.getD i default).set_feature_tag tag.FINA)).getD p
                  default).feature_tag = tag.FINA
            · rw [if_pos hfina]
              exact ih _ _ _ (all_tag_ok_set h1 (by simp [tag_ok]))
            · rw [if_neg hfina]
              exact ih _ _ _ h1
        · rw [if_neg hj]
          exact ih _ _ _ h
    · rw [if_neg hi]
      exact h

theorem tag_transition_ok_set (a gs : List ArabicGlyph) (i : Nat)
    (x : ArabicGlyph)
    (h : ∀ j, tag_transition_ok (a.getD j default).feature_tag
      (gs.getD j default).feature_tag)
    (hx : tag_transition_ok (a.getD i default).feature_tag x.feature_tag) :
    ∀ j, tag_transition_ok (a.getD j default).feature_tag
      ((gs.set i x).getD j default).feature_tag := by
  intro j
  by_cases hij : i = j
  · subst hij
    by_cases hlen : i < gs.length
    · have hx2 : (gs.set i x).getD i default = x := by
        simp [List.getD_eq_getElem?_getD, List.getElem?_set_self hlen]
      rw [hx2]
      exact hx
    · rw [List.set_eq_of_length_le (Nat.le_of_not_lt hlen)]
      exact h i
  · have hx2 : (gs.set i x).getD j default = gs.getD j default := by
      simp [List.getD_eq_getElem?_getD, List.getElem?_set_ne hij]
    rw [hx2]
    exact h j

theorem joining_pass_tag_transitions (fuel : Nat) :
    ∀ (a gs : List ArabicGlyph) (p i : Nat),
      (∀ j, tag_transition_ok (a.getD j default).feature_tag
        (gs.getD j default).feature_tag) →
      ∀ j, tag_transition_ok (a.getD j default).feature_tag
        ((joining_pass gs p i fuel).getD j default).feature_tag := by
  induction fuel with
  | zero => intro a gs p i h j; exact h j
  | succ fuel ih =>
    intro a gs p i h
    unfold joining_pass
    dsimp only
    by_cases hi : i < gs.length
    · rw [if_pos hi]
      by_cases ht : (gs.getD i default).is_transparent = true
      · rw [if_pos ht]
        exact ih _ _ _ _ h
      · rw [if_neg ht]
        by_cases hj : ((gs.getD p default).is_left_joining
            && (gs.getD i default).is_right_joining) = true
        · rw [if_pos hj]
          have h1 : ∀ j, tag_transition_ok (a.getD j default).feature_tag
              ((gs.set i
                ((gs.getD i default).set_feature_tag tag.FINA)).getD j
                default).feature_tag :=
            tag_transition_ok_set a gs i _ h (Or.inr (Or.inl (by simp)))
          by_cases hisol :
              ((gs.set i ((gs.getD i default).set_feature_tag tag.FINA)).getD p
                default).feature_tag = tag.ISOL
          · rw [if_pos hisol]
            apply ih
            apply tag_transition_ok_set _ _ p _ h1
            have hp := h1 p
            rw [hisol] at hp
            have hpi : (a.getD p default).feature_tag = tag.ISOL := by
              rcases hp with h2 | h2 | h2 | ⟨h2, _⟩
              · exact h2.symm
              · exact absurd h2 (by decide)
              · exact absurd h2 (by decide)
              · exact h2
            simp only [ArabicGlyph.set_feature_tag_feature_tag]
            exact Or.inr (Or.inr (Or.inr ⟨hpi, rfl⟩))
          · rw [if_neg hisol]
            by_cases hfina :
                ((gs.set i ((gs.getD i default).set_feature_tag tag.FINA)).getD p
                  default).feature_tag = tag.FINA
            · rw [if_pos hfina]
              apply ih
              apply tag_transition_ok_set _ _ p _ h1
              simp only [ArabicGlyph.set_feature_tag_feature_tag]
              exact Or.inr (Or.inr (Or.inl rfl))
            · rw [if_neg hfina]
              exact ih _ _ _ _ h1
        · rw [if_neg hj]
          exact ih _ _ _ _ h
    · rw [if_neg hi]
      exact h

/-- C4: every glyph's `feature_tag` is `ISOL` at conversion; across the
Joining-State Engine each glyph's tag changes only through the allowed
transitions (unchanged, set to FINA, FINA→MEDI — possibly after receiving
FINA in the same pass — or ISOL→INIT), so it is never reset to ISOL; and
after the engine every glyph's `feature_tag` is one of ISOL, INIT, MEDI,
FINA. -/
theorem feature_tag_invariant :
    (∀ (gjt : Char → JoiningType) (raw : RawGlyph Unit),
        (ArabicGlyph.fromRaw gjt raw).feature_tag = tag.ISOL) ∧
    (∀ (gs : List ArabicGlyph) (j : Nat),
        tag_transition_ok (gs.getD j default).feature_tag
          ((compute_joining_states gs).getD j default).feature_tag) ∧
    (∀ (gjt : Char → JoiningType) (raw_glyphs : List (RawGlyph Unit)),
        (compute_joining_states
            (raw_glyphs.map (ArabicGlyph.fromRaw gjt))).all tag_ok = true) := by
  refine ⟨fun gjt raw => rfl, ?_, ?_⟩
  · intro gs j
    unfold compute_joining_states
    exact joining_pass_tag_transitions _ _ _ _ _ (fun _ => Or.inl rfl) j
  · intro gjt raw_glyphs
    unfold compute_joining_states
    apply joining_pass_all_tag_ok
    rw [List.all_eq_true]
    intro g hg
    rw [List.mem_map] at hg
    obtain ⟨raw, _, rfl⟩ := hg
    simp [tag_ok, ArabicGlyph.fromRaw, ArabicGlyph.feature_tag]

theorem getElem?_eq_some_getD (l : List ArabicGlyph) (n : Nat)
    (h : n < l.length) : l[n]? = some (l.getD n default) := by
  rw [List.getD_eq_getElem?_getD, List.getElem?_eq_getElem h]
  rfl

theorem joining_pass_checked_eq_some (fuel : Nat) :
    ∀ (gs : List ArabicGlyph) (previous_i i : Nat), previous_i < i →
      joining_pass_checked gs previous_i i fuel =
        some (joining_pass gs previous_i i fuel) := by
  induction fuel with
  | zero => intro gs p i _; rfl
  | succ fuel ih =>
    intro gs p i hpi
    have hpi1 : p < i + 1 := Nat.lt_succ_of_lt hpi
    unfold joining_pass joining_pass_checked
    dsimp only
    by_cases hi : i < gs.length
    · have hp : p < gs.length := Nat.lt_trans hpi hi
      have hgi : gs[i]? = some (gs.getD i default) := getElem?_eq_some_getD _ _ hi
      have hgp : gs[p]? = some (gs.getD p default) := getElem?_eq_some_getD _ _ hp
      rw [if_pos hi, if_pos hi, hgi]
      dsimp only
      by_cases ht : (gs.getD i default).is_transparent = true
      · rw [if_pos ht, if_pos ht]
        exact ih _ _ _ hpi1
      · rw [if_neg ht, if_neg ht, hgp]
        dsimp only
        by_cases hj : ((gs.getD p default).is_left_joining
            && (gs.getD i default).is_right_joining) = true
        · rw [if_pos hj, if_pos hj]
          have hp1 : p <
              (gs.set i ((gs.getD i default).set_feature_tag tag.FINA)).length := by
            rw [List.length_set]; exact hp
          have hgp1 : (gs.set i ((gs.getD i default).set_feature_tag tag.FINA))[p]? =
              some ((gs.set i ((gs.getD i default).set_feature_tag tag.FINA)).getD p
                default) := getElem?_eq_some_getD _ _ hp1
          rw [hgp1]
          dsimp only
          exact ih _ _ _ (Nat.lt_succ_self i)
        · rw [if_neg hj, if_neg hj]
          exact ih _ _ _ (Nat.lt_succ_self i)
    · rw [if_neg hi, if_neg hi]

theorem joining_pass_stop (gs : List ArabicGlyph) (p i fuel : Nat)
    (hi : ¬ i < gs.length) : joining_pass gs p i fuel = gs := by
  cases fuel with
  | zero => rfl
  | succ fuel =>
    unfold joining_pass
    dsimp only
    rw [if_neg hi]

theorem joining_pass_skip (gs : List ArabicGlyph) (p i fuel : Nat)
    (hi : i < gs.length) (ht : (gs.getD i default).is_transparent = true) :
    joining_pass gs p i (fuel + 1) = joining_pass gs p (i + 1) fuel := by
  conv_lhs => rw [joining_pass]
  dsimp only
  rw [if_pos hi, if_pos ht]

theorem joining_pass_nojoin (gs : List ArabicGlyph) (p i fuel : Nat)
    (hi : i < gs.length) (ht : (gs.getD i default).is_transparent = false)
    (hj : ((gs.getD p default).is_left_joining
        && (gs.getD i default).is_right_joining) = false) :
    joining_pass gs p i (fuel + 1) = joining_pass gs i (i + 1) fuel := by
  conv_lhs => rw [joining_pass]
  dsimp only
  rw [if_pos hi, if_neg (by rw [ht]; exact Bool.false_ne_true),
    if_neg (by rw [hj]; exact Bool.false_ne_true)]

theorem joining_pass_join_isol (gs : List ArabicGlyph) (p i fuel : Nat)
    (hi : i < gs.length) (ht : (gs.getD i default).is_transparent = false)
    (hj : ((gs.getD p default).is_left_joining
        && (gs.getD i default).is_right_joining) = true)
    (hisol : ((gs.set i ((gs.getD i default).set_feature_tag tag.FINA)).getD p
        default).feature_tag = tag.ISOL) :
    joining_pass gs p i (fuel + 1) =
      joining_pass
        ((gs.set i ((gs.getD i default).set_feature_tag tag.FINA)).set p
          (((gs.set i ((gs.getD i default).set_feature_tag tag.FINA)).getD p
            default).set_feature_tag tag.INIT))
        i (i + 1) fuel := by
  conv_lhs => rw [joining_pass]
  dsimp only
  rw [if_pos hi, if_neg (by rw [ht]; exact Bool.false_ne_true), if_pos hj,
    if_pos hisol]

theorem joining_pass_join_fina (gs : List ArabicGlyph) (p i fuel : Nat)
    (hi : i < gs.length) (ht : (gs.getD i default).is_transparent = false)
    (hj : ((gs.getD p default).is_left_joining
        && (gs.getD i default).is_right_joining) = true)
    (hfina : ((gs.set i ((gs.getD i default).set_feature_tag tag.FINA)).getD p
        default).feature_tag = tag.FINA) :
    joining_pass gs p i (fuel + 1) =
      joining_pass
        ((gs.set i ((gs.getD i default).set_feature_tag tag.FINA)).set p
          (((gs.set i ((gs.getD i default).set_feature_tag tag.FINA)).getD p
            default).set_feature_tag tag.MEDI))
        i (i + 1) fuel := by
  conv_lhs => rw [joining_pass]
  dsimp only
  rw [if_pos hi, if_neg (by rw [ht]; exact Bool.false_ne_true), if_pos hj,
    if_neg (by rw [hfina]; exact fun h => by simp [tag.FINA, tag.ISOL] at h),
    if_pos hfina]

/-- C2: for a three-glyph sequence of dual-joining, non-transparent glyphs
in the engine's initial state (all tags `ISOL`), the Joining-State Engine
assigns A=INIT, B=MEDI, C=FINA. -/
theorem joining_three_dual_progression (A B C : ArabicGlyph)
    (hAj : A.extra_data.joining_type = JoiningType.DualJoining)
    (hBj : B.extra_data.joining_type = JoiningType.DualJoining)
    (hCj : C.extra_data.joining_type = JoiningType.DualJoining)
    (hAt : A.is_transparent = false)
    (hBt : B.is_transparent = false)
    (hCt : C.is_transparent = false)
    (hAf : A.feature_tag = tag.ISOL)
    (hBf : B.feature_tag = tag.ISOL)
    (hCf : C.feature_tag = tag.ISOL) :
    (compute_joining_states [A, B, C]).map ArabicGlyph.feature_tag =
      [tag.INIT, tag.MEDI, tag.FINA] := by
  have h1 : compute_joining_states [A, B, C] = joining_pass [A, B, C] 0 1 3 := by
    unfold compute_joining_states
    dsimp only
    rw [List.findIdx?_cons, hAt]
    rfl
  rw [h1]
  rw [joining_pass_join_isol _ _ _ _ (by simp) (by simpa using hBt)
    (by simp [ArabicGlyph.is_left_joining, ArabicGlyph.is_right_joining, hAj, hBj])
    (by simpa using hAf)]
  simp only [List.getD_cons_zero, List.getD_cons_succ, List.set_cons_zero,
    List.set_cons_succ]
  rw [joining_pass_join_fina _ _ _ _ (by simp) (by simpa using hCt)
    (by simp [ArabicGlyph.is_left_joining, ArabicGlyph.is_right_joining, hBj, hCj])
    (by simp)]
  simp only [List.getD_cons_zero, List.getD_cons_succ, List.set_cons_zero,
    List.set_cons_succ]
  rw [joining_pass_stop _ _ _ _ (by simp)]
  simp

/-- Witness for C2 at three concrete dual-joining glyphs. -/
theorem joining_three_dual_progression_witness :
    (compute_joining_states
        [mkJoinGlyph JoiningType.DualJoining, mkJoinGlyph JoiningType.DualJoining,
          mkJoinGlyph JoiningType.DualJoining]).map ArabicGlyph.feature_tag =
      [tag.INIT, tag.MEDI, tag.FINA] :=
  joining_three_dual_progression _ _ _ rfl rfl rfl rfl rfl rfl rfl rfl rfl

/-- C3: a transparent glyph between two dual-joining glyphs does not break
their adjacency (A=INIT, B=FINA, M keeps ISOL), and in general a
transparent glyph is skipped without any change to the glyph sequence or
to the engine's previous-glyph index. -/
theorem joining_transparent_preserves_adjacency :
    (∀ (A M B : ArabicGlyph),
      A.extra_data.joining_type = JoiningType.DualJoining →
      B.extra_data.joining_type = JoiningType.DualJoining →
      A.is_transparent = false → B.is_transparent = false →
      M.is_transparent = true →
      A.feature_tag = tag.ISOL → M.feature_tag = tag.ISOL →
      B.feature_tag = tag.ISOL →
      (compute_joining_states [A, M, B]).map ArabicGlyph.feature_tag =
        [tag.INIT, tag.ISOL, tag.FINA]) ∧
    (∀ (gs : List ArabicGlyph) (p i fuel : Nat),
      i < gs.length → (gs.getD i default).is_transparent = true →
      joining_pass gs p i (fuel + 1) = joining_pass gs p (i + 1) fuel) := by
  constructor
  · intro A M B hAj hBj hAt hBt hMt hAf hMf hBf
    have h1 : compute_joining_states [A, M, B] = joining_pass [A, M, B] 0 1 3 := by
      unfold compute_joining_states
      dsimp only
      rw [List.findIdx?_cons, hAt]
      rfl
    rw [h1]
    rw [joining_pass_skip _ _ _ _ (by simp) (by simpa using hMt)]
    rw [joining_pass_join_isol _ _ _ _ (by simp) (by simpa using hBt)
      (by simp [ArabicGlyph.is_left_joining, ArabicGlyph.is_right_joining, hAj, hBj])
      (by simpa using hAf)]
    simp only [List.getD_cons_zero, List.getD_cons_succ, List.set_cons_zero,
      List.set_cons_succ]
    rw [joining_pass_stop _ _ _ _ (by simp)]
    simp [hMf]
  · exact joining_pass_skip

/-- Witness for C3 at concrete glyphs: dual-joining, transparent,
dual-joining. -/
theorem joining_transparent_preserves_adjacency_witness :
    (compute_joining_states
        [mkJoinGlyph JoiningType.DualJoining, mkJoinGlyph JoiningType.Transparent,
          mkJoinGlyph JoiningType.DualJoining]).map ArabicGlyph.feature_tag =
      [tag.INIT, tag.ISOL, tag.FINA] :=
  joining_transparent_preserves_adjacency.1 _ _ _ rfl rfl rfl rfl rfl rfl rfl rfl

/-- C10: the Joining-State Engine is total and panic-free: the checked
variant, which returns `none` exactly where the Rust indexing `glyphs[..]`
would panic, succeeds on every input (empty, single-glyph and
all-transparent sequences included) and agrees with the engine. -/
theorem compute_joining_states_total (gs : List ArabicGlyph) :
    compute_joining_states_checked gs = some (compute_joining_states gs) := by
  unfold compute_joining_states compute_joining_states_checked
  exact joining_pass_checked_eq_some _ _ _ _ (Nat.lt_succ_self _)

/-- C6: converting a generic glyph to an Arabic glyph and back reproduces
every generic field exactly (the conversion out drops only the extension
data). -/
theorem raw_glyph_round_trip (gjt : Char → JoiningType) (raw : RawGlyph Unit) :
    RawGlyph.fromArabic (ArabicGlyph.fromRaw gjt raw) = raw := by
  cases raw
  rfl

/-- C8: the conversion to an Arabic glyph is total, always sets
`feature_tag` to ISOL, and for a glyph with no originating character
(`GlyphOrigin::Direct`) sets joining type NonJoining and combining class
0. -/
theorem from_raw_defaults (gjt : Char → JoiningType) (raw : RawGlyph Unit) :
    (ArabicGlyph.fromRaw gjt raw).feature_tag = tag.ISOL ∧
    (raw.glyph_origin = GlyphOrigin.Direct →
      (ArabicGlyph.fromRaw gjt raw).extra_data.joining_type =
          JoiningType.NonJoining ∧
      (ArabicGlyph.fromRaw gjt raw).extra_data.canonical_combining_class = 0) := by
  refine ⟨rfl, fun h => ?_⟩
  constructor
  · simp [ArabicGlyph.fromRaw, h]
  · simp [ArabicGlyph.fromRaw, h]

/-- Witness for C8 at a concrete synthetic-origin glyph. -/
theorem from_raw_defaults_witness :
    (ArabicGlyph.fromRaw (fun _ => JoiningType.DualJoining)
        sampleDirectRaw).feature_tag = tag.ISOL ∧
    (ArabicGlyph.fromRaw (fun _ => JoiningType.DualJoining)
        sampleDirectRaw).extra_data.joining_type = JoiningType.NonJoining ∧
    (ArabicGlyph.fromRaw (fun _ => JoiningType.DualJoining)
        sampleDirectRaw).extra_data.canonical_combining_class = 0 :=
  ⟨(from_raw_defaults (fun _ => JoiningType.DualJoining) sampleDirectRaw).1,
   (from_raw_defaults (fun _ => JoiningType.DualJoining) sampleDirectRaw).2 rfl⟩

set_option maxHeartbeats 3200000 in
/-- C7: the combining-class lookup is total: it returns the documented
fixed value for each tabulated character (Fatha 30, Damma 31, Kasra 32,
Shadda 33, Sukun 34, Superscript Alef 35) and 0 for every character
outside the fixed table. -/
theorem canonical_combining_class_spec :
    (canonical_combining_class '\u064E' = 30 ∧
     canonical_combining_class '\u064F' = 31 ∧
     canonical_combining_class '\u0650' = 32 ∧
     canonical_combining_class '\u0651' = 33 ∧
     canonical_combining_class '\u0652' = 34 ∧
     canonical_combining_class '\u0670' = 35) ∧
    (∀ ch : Char, ch ∉ ccc_tabulated → canonical_combining_class ch = 0) := by
  constructor
  · exact ⟨rfl, rfl, rfl, rfl, rfl, rfl⟩
  · intro ch h
    unfold canonical_combining_class
    split
    all_goals first
      | rfl
      | (exact absurd (by decide) h)

/-- Witness for C7 at a concrete untabulated character. -/
theorem canonical_combining_class_spec_witness :
    canonical_combining_class 'A' = 0 :=
  canonical_combining_class_spec.2 'A' (by decide)

/-- C1: with an applicable script and language system, the shaping entry
point is exactly the spec's fixed pipeline: CCMP, then the Joining-State
Engine, then LOCL, ISOL, FINA, MEDI, INIT, RLIG, RCLT, CALT in order, then
LIGA, MSET in order, where ISOL/FINA/MEDI/INIT gate each glyph on
`feature_tag` equality and every other feature's predicate is always
true. -/
theorem gsub_apply_arabic_feature_order
    (gjt : Char → JoiningType) (lookupsFor : LookupsFor)
    (applyLookup : ApplyLookup) (gsub_table : GsubTable)
    (script_tag : Nat) (lang_tag : Option Nat)
    (raw_glyphs : List (RawGlyph Unit)) (s : Script) (ls : LangSys)
    (h1 : gsub_table.find_script script_tag = Except.ok (some s))
    (h2 : s.find_langsys_or_default lang_tag = Except.ok (some ls)) :
    gsub_apply_arabic gjt lookupsFor applyLookup gsub_table script_tag
        lang_tag raw_glyphs =
      match spec_feature_order_pipeline lookupsFor applyLookup script_tag
          lang_tag (raw_glyphs.map (ArabicGlyph.fromRaw gjt)) with
      | Except.error e => (Except.error (ShapingError.parse e), raw_glyphs)
      | Except.ok arabic_glyphs =>
        (Except.ok (), arabic_glyphs.map RawGlyph.fromArabic) := by
  unfold gsub_apply_arabic
  rw [h1]
  dsimp only
  rw [h2]
  dsimp only
  have hpipe : arabic_pipeline lookupsFor applyLookup script_tag lang_tag
      (raw_glyphs.map (ArabicGlyph.fromRaw gjt)) =
      spec_feature_order_pipeline lookupsFor applyLookup script_tag lang_tag
        (raw_glyphs.map (ArabicGlyph.fromRaw gjt)) := by
    unfold arabic_pipeline spec_feature_order_pipeline LANGUAGE_FEATURES
      TYPOGRAPHIC_FEATURES
    simp only [List.foldlM, bind_assoc, pure_bind, bind_pure, Bool.true_or,
      Bool.false_or]
  rw [hpipe]

/-- Witness for C1 at concrete collaborators with an applicable script and
language system. -/
theorem gsub_apply_arabic_feature_order_witness :
    gsub_apply_arabic (fun _ => JoiningType.NonJoining) emptyLookupsFor
        idApplyLookup sampleGsub 0 none [sampleDirectRaw] =
      match spec_feature_order_pipeline emptyLookupsFor idApplyLookup 0 none
          ([sampleDirectRaw].map
            (ArabicGlyph.fromRaw (fun _ => JoiningType.NonJoining))) with
      | Except.error e => (Except.error (ShapingError.parse e), [sampleDirectRaw])
      | Except.ok arabic_glyphs =>
        (Except.ok (), arabic_glyphs.map RawGlyph.fromArabic) :=
  gsub_apply_arabic_feature_order (fun _ => JoiningType.NonJoining)
    emptyLookupsFor idApplyLookup sampleGsub 0 none [sampleDirectRaw]
    sampleLangsysScript () rfl rfl

/-- C5: when the script is absent from the layout table, or present with
no matching language system and no default, shaping succeeds and returns
the glyph sequence unchanged, performing no conversion, lookup or
joining-state work (the result does not depend on the collaborators). -/
theorem gsub_apply_arabic_noop_when_not_applicable
    (gjt : Char → JoiningType) (lookupsFor : LookupsFor)
    (applyLookup : ApplyLookup) (gsub_table : GsubTable)
    (script_tag : Nat) (lang_tag : Option Nat)
    (raw_glyphs : List (RawGlyph Unit))
    (h : gsub_table.find_script script_tag = Except.ok none ∨
      ∃ s, gsub_table.find_script script_tag = Except.ok (some s) ∧
        s.find_langsys_or_default lang_tag = Except.ok none) :
    gsub_apply_arabic gjt lookupsFor applyLookup gsub_table script_tag
        lang_tag raw_glyphs = (Except.ok (), raw_glyphs) := by
  unfold gsub_apply_arabic
  rcases h with h | ⟨s, h1, h2⟩
  · rw [h]
  · rw [h1]
    dsimp only
    rw [h2]

/-- Witness for C5 at a concrete layout table with no script. -/
theorem gsub_apply_arabic_noop_when_not_applicable_witness :
    gsub_apply_arabic (fun _ => JoiningType.NonJoining) emptyLookupsFor
        idApplyLookup sampleGsubNoScript 0 none [sampleDirectRaw] =
      (Except.ok (), [sampleDirectRaw]) :=
  gsub_apply_arabic_noop_when_not_applicable (fun _ => JoiningType.NonJoining)
    emptyLookupsFor idApplyLookup sampleGsubNoScript 0 none [sampleDirectRaw]
    (Or.inl rfl)

/-- C9: whenever the shaping entry point returns an error, the caller's
glyph sequence is unchanged: all work happens on the converted copy, which
is written back only on the success path. -/
theorem gsub_apply_arabic_error_leaves_input
    (gjt : Char → JoiningType) (lookupsFor : LookupsFor)
    (applyLookup : ApplyLookup) (gsub_table : GsubTable)
    (script_tag : Nat) (lang_tag : Option Nat)
    (raw_glyphs : List (RawGlyph Unit)) (e : ShapingError)
    (h : (gsub_apply_arabic gjt lookupsFor applyLookup gsub_table script_tag
        lang_tag raw_glyphs).1 = Except.error e) :
    (gsub_apply_arabic gjt lookupsFor applyLookup gsub_table script_tag
        lang_tag raw_glyphs).2 = raw_glyphs := by
  unfold gsub_apply_arabic at h ⊢
  cases hfs : gsub_table.find_script script_tag with
  | error e1 => rfl
  | ok o =>
    rw [hfs] at h
    cases o with
    | none => rfl
    | some s =>
      dsimp only at h ⊢
      cases hls : s.find_langsys_or_default lang_tag with
      | error e2 => rfl
      | ok o2 =>
        rw [hls] at h
        cases o2 with
        | none => rfl
        | some ls =>
          dsimp only at h ⊢
          cases hap : arabic_pipeline lookupsFor applyLookup script_tag
              lang_tag (raw_glyphs.map (ArabicGlyph.fromRaw gjt)) with
          | error e3 => rfl
          | ok gs =>
            rw [hap] at h
            dsimp only at h
            exact Except.noConfusion h

/-- Witness for C9 at a concrete failing lookup cache. -/
theorem gsub_apply_arabic_error_leaves_input_witness :
    (gsub_apply_arabic (fun _ => JoiningType.NonJoining) failLookupsFor
        idApplyLookup sampleGsub 0 none [sampleDirectRaw]).2 =
      [sampleDirectRaw] :=
  gsub_apply_arabic_error_leaves_input (fun _ => JoiningType.NonJoining)
    failLookupsFor idApplyLookup sampleGsub 0 none [sampleDirectRaw]
    (ShapingError.parse ParseError.BadValue) rfl

end Allsorts
